import Mathlib

/-!
Verification of the mal4u MyAnimeList scraping library.

A shallow embedding, in Lean 4, of the parts of the `mal4u` Python library
(domain constants, the shared data model, the HTML traversal helpers of
`base.py`, the manga/anime/characters parser operations) that the checked
claims are about, together with theorems settling each claim.

Conventions of the embedding:
* Python strings are Lean `String`; machine behaviour that claims depend on
  (`str.format`, `str.split`, `int(...)`, truthiness) is embedded explicitly.
* `None`-able Python values become `Option`; Python exceptions become
  `Except PyErr`.
* HTML documents (BeautifulSoup trees) are the inductive type `Html` below;
  the null-safe query helpers of `base.py` are embedded over it.
* Network fetches are an explicit oracle `String → Option Html`; observable
  side effects (page fetches, the courtesy sleep, file writes) are recorded
  in a `List Effect` trace returned alongside each operation's value.
* Code of the repository that is not present under `src/`
  (`search_base.py`, `characters/types.py`, the pydantic `HttpUrl`
  boundary capability) is modelled from the spec; every such definition
  carries a doc comment starting with `Modelled from the spec:`.
-/

namespace Mal4u

/-- A Python exception, carried as its message. -/
abbrev PyErr := String

/-- One observable side effect of a library operation. -/
inductive Effect where
  /-- An HTTP GET of the given URL (`BaseParser._request` / `_get_soup`). -/
  | fetchPage (url : String)
  /-- The fixed `asyncio.sleep(0.5)` courtesy pause between page fetches. -/
  | sleepHalf
  /-- Opening the named file for writing (`open(path, "w")`). -/
  | fileWrite (path : String)
  /-- One ranked-list page fetch through `_get_top_list_page(path,
  type_value, offset)` of the missing `search_base.py` (spec section 4.4:
  "fetches one ranked-list page at a given path, optional filter-kind
  value, and offset"). -/
  | fetchTopListPage (path : String) (type_value : Option String) (offset : Nat)
deriving DecidableEq, Repr

/-! ## Python string primitives -/

/-- Python `str.startswith`. -/
def pyStartsWith (s px : String) : Bool :=
  px.data.isPrefixOf s.data

/-- Python `needle in haystack` substring test. -/
def pyContains (hay needle : String) : Bool :=
  hay.data.tails.any fun t => needle.data.isPrefixOf t

/-- Python `str.strip()` (ASCII whitespace at both ends). -/
def pyStrip (s : String) : String :=
  ⟨(s.data.dropWhile Char.isWhitespace).reverse.dropWhile Char.isWhitespace |>.reverse⟩

/-- Python `str.strip(chars)`: drop characters of `cs` from both ends. -/
def pyStripChars (s : String) (cs : List Char) : String :=
  ⟨((s.data.dropWhile (cs.contains ·)).reverse.dropWhile (cs.contains ·)).reverse⟩

/-- Python `str.split(sep)` for a non-empty separator (including
`"".split(sep) == [""]` and adjacent separators yielding empty pieces). -/
def pySplit (s sep : String) : List String :=
  go s.data [] s.data.length
where
  go (l acc : List Char) : Nat → List String
    | 0 => [⟨acc.reverse ++ l⟩]
    | fuel + 1 =>
      match l with
      | [] => [(⟨acc.reverse⟩ : String)]
      | c :: rest =>
        if sep.data ≠ [] ∧ sep.data.isPrefixOf l then
          (⟨acc.reverse⟩ : String) :: go (l.drop sep.data.length) [] fuel
        else go rest (c :: acc) fuel

/-- Python `str.replace(old, new)` for a non-empty `old`: replace every
(leftmost, non-overlapping) occurrence. -/
def pyReplace (s old new : String) : String :=
  ⟨go s.data old.data new.data s.data.length⟩
where
  go (l old new : List Char) : Nat → List Char
    | 0 => l
    | fuel + 1 =>
      match l with
      | [] => []
      | c :: rest =>
        if old.isPrefixOf l then new ++ go (l.drop old.length) old new fuel
        else c :: go rest old new fuel

/-- Python `int(text)` after the source's `.replace(',', '').strip()`
pre-processing is applied by the caller: optional sign then one or more
digits, anything else is a `ValueError`. Returns `none` for the error case. -/
def pyIntOfString (s : String) : Option Int :=
  match s.data with
  | [] => none
  | '-' :: ds => (digitsVal ds).map fun n => -(n : Int)
  | '+' :: ds => (digitsVal ds).map fun n => (n : Int)
  | ds => (digitsVal ds).map fun n => (n : Int)
where
  digitsVal (ds : List Char) : Option Nat :=
    if ds ≠ [] ∧ ds.all Char.isDigit then
      some (ds.foldl (fun a c => a * 10 + (c.toNat - '0'.toNat)) 0)
    else none

/-- Python truthiness of an `Option Int` (`None` and `0` are falsy), as used
in guards like `if media_id and ...`. -/
def truthyOptInt : Option Int → Bool
  | none => false
  | some n => n != 0

/-- Python `str.capitalize()`: first character upper-cased, the rest
lower-cased. -/
def pyCapitalize (s : String) : String :=
  match s.data with
  | [] => ""
  | c :: rest => ⟨c.toUpper :: rest.map Char.toLower⟩

/-! ## `str.format` with keyword arguments

`mal4u` builds details URLs with `TEMPLATE.format(key=value)`.  A template
is split into literal segments and `{field}` references; rendering a field
that is not among the keyword arguments raises `KeyError`, exactly as in
Python. -/

/-- One piece of a format template: a literal or a `{field}` reference. -/
inductive FmtSeg where
  | lit (s : String)
  | field (name : String)
deriving DecidableEq, Repr

/-- Split a format template into segments (the templates of `constants.py`
contain no escaped braces, so `{` always opens a field). -/
def fmtSegments (template : String) : List FmtSeg :=
  go template.data [] template.data.length
where
  go (l acc : List Char) : Nat → List FmtSeg
    | 0 => if acc.isEmpty then [] else [FmtSeg.lit ⟨acc.reverse⟩]
    | fuel + 1 =>
      match l with
      | [] => if acc.isEmpty then [] else [FmtSeg.lit ⟨acc.reverse⟩]
      | '{' :: rest =>
        let name := rest.takeWhile (· ≠ '}')
        let tail := (rest.drop name.length).drop 1
        (if acc.isEmpty then [] else [FmtSeg.lit ⟨acc.reverse⟩]) ++
          FmtSeg.field ⟨name⟩ :: go tail [] fuel
      | c :: rest => go rest (c :: acc) fuel

/-- Python `template.format(**kwargs)`: substitute every `{field}`; a field
missing from `kwargs` raises `KeyError('field')`. -/
def pyFormat (template : String) (kwargs : List (String × String)) :
    Except PyErr String :=
  (fmtSegments template).foldlM
    (fun acc seg =>
      match seg with
      | FmtSeg.lit s => Except.ok (acc ++ s)
      | FmtSeg.field n =>
        match kwargs.lookup n with
        | some v => Except.ok (acc ++ v)
        | none => Except.error ("KeyError: " ++ n))
    ""

/-! ## `mal4u/constants.py` -/

def MAL_DOMAIN : String := "https://myanimelist.net"
def MAL_PAGE_SIZE : Nat := 50

def MANGA_URL : String := "/manga.php"
def MANGA_DETAILS_URL : String := "/manga/{manga_id}"
def ANIME_URL : String := "/anime.php"

/-- The first assignment of `ANIME_DETAILS_URL` (constants.py line 19). -/
def ANIME_DETAILS_URL_assigned_line19 : String := "/anime/{anime_id}"

/-- The binding named `ANIME_DETAILS_URL` after the `constants` module has
been evaluated.  The module assigns the name twice — line 19
(`"/anime/{anime_id}"`) and line 26 (`"/character/{character_id}"`, in the
`# --- Character` section) — and, Python modules being evaluated top to
bottom, the second assignment is the one every importer sees. -/
def ANIME_DETAILS_URL : String := "/character/{character_id}"

def CHARACTER_URL : String := "/character.php"
def ANIME_SEASONAL_URL : String := "anime/season/{year}/{season}"
def ANIME_SCHEDULE_URL : String := "anime/season/schedule"

/-- Embeds `TopType` (`constants.py` lines 34-55): the ranked-list filter kinds. -/
inductive TopType where
  | MOST_POPULAR | MOST_FAVORITED
  | AIRING | UPCOMING | TV_SERIES | MOVIES | OVAS | ONAS | SPECIAL
  | ALL_MANGA | ONE_SHOTS | DOUJIN | LIGHT_NOVELS | NOVELS | MANHWA | MANHUA
deriving DecidableEq, Repr

/-- The literal wire value of each `TopType` member. -/
def TopType.value : TopType → String
  | .MOST_POPULAR => "bypopularity"
  | .MOST_FAVORITED => "favorite"
  | .AIRING => "airing"
  | .UPCOMING => "upcoming"
  | .TV_SERIES => "tv"
  | .MOVIES => "movie"
  | .OVAS => "ova"
  | .ONAS => "ona"
  | .SPECIAL => "special"
  | .ALL_MANGA => "manga"
  | .ONE_SHOTS => "oneshots"
  | .DOUJIN => "doujin"
  | .LIGHT_NOVELS => "lightnovels"
  | .NOVELS => "novels"
  | .MANHWA => "manhwa"
  | .MANHUA => "manhua"

/-- Embeds `TopType.is_anime_specific` (`constants.py` lines 57-67). -/
def TopType.is_anime_specific (value : TopType) : Bool :=
  [TopType.AIRING, TopType.UPCOMING, TopType.TV_SERIES, TopType.MOVIES,
   TopType.OVAS, TopType.ONAS, TopType.SPECIAL].contains value

/-- Embeds `TopType.is_manga_specific` (`constants.py` lines 69-79). -/
def TopType.is_manga_specific (value : TopType) : Bool :=
  [TopType.ALL_MANGA, TopType.ONE_SHOTS, TopType.DOUJIN,
   TopType.LIGHT_NOVELS, TopType.NOVELS, TopType.MANHWA,
   TopType.MANHUA].contains value

/-- Embeds `TopType.is_common` (`constants.py` lines 81-86). -/
def TopType.is_common (value : TopType) : Bool :=
  [TopType.MOST_POPULAR, TopType.MOST_FAVORITED].contains value


/-! ## The HTML document tree (BeautifulSoup boundary capability)

An element tree: tags carry a name, an attribute list (the `class`
attribute holds a space-separated list of class names, as in HTML source)
and children; text nodes are `NavigableString`s. -/

inductive Html where
  | tag (name : String) (attrs : List (String × String)) (children : List Html)
  | text (s : String)

namespace Html

/-- Tag name of a node (`""` for a text node, which has no `.name`). -/
def name : Html → String
  | .tag n _ _ => n
  | .text _ => ""

/-- Whether the node is a `Tag` (`isinstance(node, Tag)`). -/
def isTag : Html → Bool
  | .tag _ _ _ => true
  | .text _ => false

/-- Embeds `element.get(attr, default)` restricted to string-valued attributes. -/
def attr (h : Html) (key : String) (default : String := "") : String :=
  match h with
  | .tag _ attrs _ => ((attrs.lookup key).getD default)
  | .text _ => default

/-- Embeds `element.get('class', [])`: the class attribute as a list of names. -/
def classes (h : Html) : List String :=
  (Mal4u.pySplit (h.attr "class") " ").filter (· ≠ "")

/-- Whether the node carries the given class name (bs4 `class_=` filters). -/
def hasClass (h : Html) (c : String) : Bool :=
  h.classes.contains c

mutual
/-- All text-node strings below a node, in document order (the node's own
string if it is a text node). -/
def texts : Html → List String
  | .text s => [s]
  | .tag _ _ cs => textsList cs

def textsList : List Html → List String
  | [] => []
  | c :: rest => texts c ++ textsList rest
end

/-- bs4 `get_text()`: concatenation of all text descendants. -/
def getTextRaw (h : Html) : String :=
  String.join h.texts

/-- bs4 `get_text(strip=True)` (used by `BaseParser._get_text`):
concatenation of the individually stripped text descendants, whitespace-only
strings dropped. -/
def getTextStripped (h : Html) : String :=
  String.join ((h.texts.map pyStrip).filter (· ≠ ""))

/-- bs4 `stripped_strings`: the stripped text descendants, empties dropped. -/
def strippedStrings (h : Html) : List String :=
  (h.texts.map pyStrip).filter (· ≠ "")

/-- bs4 `get_text(separator, strip=True)`. -/
def getTextSep (h : Html) (sep : String) : String :=
  String.intercalate sep h.strippedStrings

/-- bs4 `tag.string`: the unique string below a chain of single children,
or `None`. -/
def nodeString : Html → Option String
  | .text s => some s
  | .tag _ _ [c] => nodeString c
  | .tag _ _ _ => none

mutual
/-- All descendants of a node in document order, each with the list of its
following siblings and the list of the tag names of its proper ancestors
below (excluding) the searched root, nearest ancestor first.  This is the
context bs4 keeps through parent/sibling pointers: `find_next_sibling`
walks the second component, `find_parent` and parent comparisons use the
third. -/
def ctxs : Html → List (Html × List Html × List String)
  | .text _ => []
  | .tag nm _ cs => ctxsList nm cs

def ctxsList (parentName : String) : List Html → List (Html × List Html × List String)
  | [] => []
  | c :: rest =>
    (c, rest, []) ::
      ((ctxs c).map fun x => (x.1, x.2.1, parentName :: x.2.2)) ++
        ctxsList parentName rest
end

/-- All descendants in document order (no context). -/
def descendants (h : Html) : List Html :=
  (ctxs h).map (·.1)

/-- bs4 `find_all(...)` over descendants, as a predicate filter. -/
def findAllP (h : Html) (p : Html → Bool) : List Html :=
  h.descendants.filter p

/-- bs4 `find(...)` over descendants (first match in document order). -/
def findP (h : Html) (p : Html → Bool) : Option Html :=
  (h.findAllP p).head?

/-- bs4 `find(..., recursive=False)`: first matching direct child. -/
def findChildP (h : Html) (p : Html → Bool) : Option Html :=
  match h with
  | .text _ => none
  | .tag _ _ cs => (cs.filter p).head?

/-- bs4 `find_all(..., recursive=False)`: all matching direct children. -/
def findChildrenP (h : Html) (p : Html → Bool) : List Html :=
  match h with
  | .text _ => []
  | .tag _ _ cs => cs.filter p

/-- First match in document order together with its context (following
siblings and ancestor tag names below the root). -/
def findCtxP (h : Html) (p : Html → Bool) :
    Option (Html × List Html × List String) :=
  ((ctxs h).filter fun x => p x.1).head?

/-- All matches in document order with context. -/
def findAllCtxP (h : Html) (p : Html → Bool) :
    List (Html × List Html × List String) :=
  (ctxs h).filter fun x => p x.1

/-- bs4 `node.find_next_sibling(tagName)` given the node's following
siblings: the first following sibling that is a tag of that name. -/
def nextSiblingTag (siblings : List Html) (tagName : String) : Option Html :=
  (siblings.filter fun s => s.isTag && s.name == tagName).head?

/-- Like `nextSiblingTag` but also returns the siblings after the match,
for iterated `find_next_sibling` walks. -/
def nextSiblingTagWithRest (siblings : List Html) (tagName : String) :
    Option (Html × List Html) :=
  match siblings with
  | [] => none
  | s :: rest =>
    if s.isTag && s.name == tagName then some (s, rest)
    else nextSiblingTagWithRest rest tagName

end Html

/-! ## Null-safe helpers of `base.py` (`BaseParser`)

The oracle-style helpers take `Option Html` parents and never fail, exactly
like the source's null-safe contract. -/

/-- Embeds `BaseParser._safe_find` (first matching descendant, `None`-safe). -/
def safeFind (parent : Option Html) (p : Html → Bool) : Option Html :=
  match parent with
  | none => none
  | some h => h.findP p

/-- Embeds `BaseParser._safe_find_all` (`None`-safe, empty list on no parent). -/
def safeFindAll (parent : Option Html) (p : Html → Bool) : List Html :=
  match parent with
  | none => []
  | some h => h.findAllP p

/-- Embeds `BaseParser._get_text` (stripped text, `""` when absent). -/
def getText (element : Option Html) (default : String := "") : String :=
  match element with
  | none => default
  | some h => h.getTextStripped

/-- Embeds `BaseParser._get_attr` (attribute value, `""` when absent). -/
def getAttr (element : Option Html) (a : String) (default : String := "") : String :=
  match element with
  | none => default
  | some h => h.attr a default

/-- Embeds `BaseParser._parse_int`: strip thousands-separator commas and
whitespace, then Python `int(...)`; malformed input yields the default
(`None` here, as at every call site the claims touch). -/
def parseInt (text : Option String) : Option Int :=
  match text with
  | none => none
  | some t => pyIntOfString (pyStrip (pyReplace t "," ""))

/-- Embeds `BaseParser._get_clean_sibling_text`: the stripped text of the node's
immediate next sibling, only if that sibling is a raw text node. -/
def getCleanSiblingText (siblings : List Html) : Option String :=
  match siblings with
  | Html.text s :: _ => let t := pyStrip s; if t ≠ "" then some t else none
  | _ => none

/-! ## ID-extraction regular expressions

Every ID pattern in the source has the shape "literal path segment(s), then
one or more digits, optionally followed by more path".  `re.search`
semantics: scan positions left to right, at the first position where the
whole pattern matches return capture group 1 (the digit run, greedy). -/

/-- Leftmost `re.search` for one of the alternative literals followed by a
digit run (group 1); when `slashAfter` is set the pattern additionally
requires a literal `/` right after the digits (patterns like
`/genre/(\\d+)/`, as opposed to `/anime/(\\d+)(?:/[^/]*)?` whose suffix is
optional). -/
def regexSearchLitDigits (lits : List String) (slashAfter : Bool)
    (url : String) : Option Int :=
  go url.data
where
  matchAt (l : List Char) : Option Int :=
    (lits.filterMap fun lit =>
      if lit.data.isPrefixOf l then
        let after := l.drop lit.data.length
        let ds := after.takeWhile Char.isDigit
        if ds ≠ [] ∧ (¬slashAfter ∨ (after.drop ds.length).head? = some '/') then
          some ((ds.foldl (fun a c => a * 10 + (c.toNat - '0'.toNat)) 0 : Nat) : Int)
        else none
      else none).head?
  go : List Char → Option Int
    | [] => none
    | l@(_ :: rest) =>
      match matchAt l with
      | some v => some v
      | none => go rest

/-- Embeds `ANIME_ID_PATTERN = /anime/(\\d+)(?:/[^/]*)?` as a matcher. -/
def ANIME_ID_PATTERN : String → Option Int :=
  regexSearchLitDigits ["/anime/"] false

/-- Embeds `MANGA_ID_PATTERN = /manga/(\\d+)(?:/[^/]*)?` as a matcher. -/
def MANGA_ID_PATTERN : String → Option Int :=
  regexSearchLitDigits ["/manga/"] false

/-- Embeds `CHARACTER_ID_PATTERN = /character/(\\d+)(?:/[^/]*)?` as a matcher. -/
def CHARACTER_ID_PATTERN : String → Option Int :=
  regexSearchLitDigits ["/character/"] false

/-- Embeds `PRODUCER_ID_PATTERN = /producer/(\\d+)(?:/[^/]*)?` as a matcher. -/
def PRODUCER_ID_PATTERN : String → Option Int :=
  regexSearchLitDigits ["/producer/"] false

/-- Embeds `PERSON_ID_PATTERN = /people/(\\d+)(?:/[^/]*)?` as a matcher. -/
def PERSON_ID_PATTERN : String → Option Int :=
  regexSearchLitDigits ["/people/"] false

/-- Embeds `GENRE_ID_PATTERN = /genre/(\\d+)(?:/[^/]*)?` as a matcher. -/
def GENRE_ID_PATTERN : String → Option Int :=
  regexSearchLitDigits ["/genre/"] false

/-- The default pattern of `_parse_link_list`
(`r"/(?:genre|magazine|people)/(\\d+)/"`, base.py line 167). -/
def defaultLinkListPattern : String → Option Int :=
  regexSearchLitDigits ["/genre/", "/magazine/", "/people/"] true

/-- Embeds `BaseParser._extract_id_from_url`: `None`/empty URL yields `None`,
otherwise leftmost regex search for the pattern's group 1 as an int. -/
def extractIdFromUrl (url : String) (pattern : String → Option Int) :
    Option Int :=
  if url = "" then none else pattern url

/-! ## URL mixins and the shared `LinkItem` entity (`types.py`) -/

/-- Modelled from the spec: the pydantic `HttpUrl` boundary capability
("declarative record-validation capability", spec section 6; the *Canonical
URL* mixin of section 3 stores the address and is "always absolute after
construction").  It accepts an absolute http(s) URL string, storing it
unchanged, and rejects anything else with a validation error. -/
def httpUrl (v : String) : Except PyErr String :=
  if pyStartsWith v "http://" || pyStartsWith v "https://" then Except.ok v
  else Except.error ("ValidationError: invalid URL " ++ v)

/-- Embeds `urlMixin.validate_url` (types.py lines 32-41): a site-relative path
(leading `/`) is prefixed with `MAL_DOMAIN` before `HttpUrl` validation; any
other string goes to `HttpUrl` unchanged. -/
def validateUrl (v : String) : Except PyErr String :=
  let v := if pyStartsWith v "/" then MAL_DOMAIN ++ v else v
  httpUrl v

/-- Embeds `imageUrlMixin.validate_image_url` (types.py lines 17-27): an empty
string becomes `None`; otherwise the same absolutization as `validate_url`. -/
def validateImageUrl (v : Option String) : Except PyErr (Option String) :=
  match v with
  | none => Except.ok none
  | some s =>
    if s = "" then Except.ok none
    else (validateUrl s).map some

/-- Embeds `LinkItem` (types.py lines 43-46): id + canonical URL + name + optional
link-kind tag. -/
structure LinkItem where
  mal_id : Int
  url : String
  name : String
  type : Option String
deriving DecidableEq, Repr

/-- Constructing `LinkItem(...)` through pydantic: the URL runs through
`urlMixin.validate_url`, and the `type` field is declared
`Optional[Literal['season', 'producer']]` (types.py line 46), so any other
tag string fails validation with a `ValidationError`. -/
def LinkItem.make (mal_id : Int) (name url : String) (ty : Option String) :
    Except PyErr LinkItem := do
  let u ← validateUrl url
  match ty with
  | none => Except.ok ⟨mal_id, u, name, none⟩
  | some t =>
    if t = "season" ∨ t = "producer" then Except.ok ⟨mal_id, u, name, some t⟩
    else Except.error ("ValidationError: type " ++ t)

/-! ## `BaseParser._parse_link_list` (base.py lines 162-216) -/

/-- The link-kind guess of base.py lines 202-207. -/
def guessLinkType (href : String) : Option String :=
  if pyContains href "/anime/producer/" then some "producer"
  else if pyContains href "/people/" then some "person"
  else if pyContains href "/character/" then some "character"
  else if pyContains href "/manga/magazine/" then some "magazine"
  else if pyContains href "/genre/" then some "genre"
  else none

/-- Embeds `BaseParser._parse_link_list`, embedded over the `next_sibling` chain of
the start node: walk forward siblings, stop at a tag named `stop_at_tag` or
at an `h2`; for each anchor extract name, href and an id via the supplied
pattern; anchors missing one of those are skipped; for the rest a
`LinkItem` is constructed with the guessed link-kind tag, and a
`ValidationError` from that construction skips the anchor (base.py lines
209-211). -/
def parseLinkList (siblings : List Html) (stop_at_tag : String)
    (pattern : String → Option Int) : List LinkItem :=
  match siblings with
  | [] => []
  | node :: rest =>
    if node.isTag then
      if node.name = stop_at_tag ∨ node.name = "h2" then []
      else if node.name = "a" then
        let href := getAttr (some node) "href"
        let name := getText (some node)
        let mal_id := if href ≠ "" then extractIdFromUrl href pattern else none
        match mal_id with
        | some m =>
          if name ≠ "" ∧ href ≠ "" then
            match LinkItem.make m name href (guessLinkType href) with
            | Except.ok item => item :: parseLinkList rest stop_at_tag pattern
            | Except.error _ => parseLinkList rest stop_at_tag pattern
          else parseLinkList rest stop_at_tag pattern
        | none => parseLinkList rest stop_at_tag pattern
      else parseLinkList rest stop_at_tag pattern
    else parseLinkList rest stop_at_tag pattern

/-! ## The statistics "Ranked:" extraction of the manga details parser -/

/-- Embeds the `"ranked:"` branch of `MALMangaParser._parse_manga_details`
(manga/parser.py lines 176-178): given the clean sibling text after the
`Ranked:` label span, the source computes
`_parse_int(rank_text.split('#')[-1].split('2')[0] if rank_text else None)`. -/
def mangaStatisticsRank (rank_text : Option String) : Option Int :=
  match rank_text with
  | none => parseInt none
  | some t =>
    parseInt (some ((pySplit ((pySplit t "#").getLastD "") "2").headD ""))

/-- The same extraction starting from the sibling chain of the `Ranked:`
label span, via `_get_clean_sibling_text`. -/
def mangaStatisticsRankFromSiblings (siblings : List Html) : Option Int :=
  mangaStatisticsRank (getCleanSiblingText siblings)

/-! ## Query-string building (`urllib.parse.urlencode`) -/

/-- Hex digit for percent-encoding (uppercase, as `urllib.parse.quote`). -/
def hexDigit (n : Nat) : Char :=
  if n < 10 then Char.ofNat (48 + n) else Char.ofNat (65 + n - 10)

/-- Embeds `urllib.parse.quote_plus` applied to one character: unreserved
characters kept, space becomes `+`, everything else percent-encoded from its
UTF-8 bytes. -/
def quotePlusChar (c : Char) : String :=
  if c.isAlphanum ∨ c ∈ ['_', '.', '-', '~'] then String.singleton c
  else if c = ' ' then "+"
  else
    String.join ((String.singleton c).toUTF8.toList.map fun b =>
      ⟨['%', hexDigit (b.toNat / 16), hexDigit (b.toNat % 16)]⟩)

/-- Embeds `urllib.parse.quote_plus` on a string. -/
def quotePlus (s : String) : String :=
  String.join (s.data.map quotePlusChar)

/-- Embeds `urllib.parse.urlencode` on an association list (all values
already rendered to strings). -/
def urlencode (pairs : List (String × String)) : String :=
  String.intercalate "&" (pairs.map fun kv => quotePlus kv.1 ++ "=" ++ quotePlus kv.2)

/-- A Python `datetime.date`, as the (day, month, year) triple the URL
builders read from it. -/
structure PyDate where
  day : Int
  month : Int
  year : Int
deriving DecidableEq, Repr

/-! ## `MALAnimeParser._build_anime_search_url` (anime/parser.py 868-914) -/

/-- Embeds `_build_anime_search_url`: the query dict is built in source
order (`q`, `type`, `status`, `r`, `score`, `p`, `sd/sm/sy`, `ed/em/ey`),
then the repeated `genre[]`/`genre_ex[]` pairs are appended and the whole
list is url-encoded after `?`.  `q` is included only when the query is
non-empty after stripping (its spaces replaced by `+` first); `score` and
`producer` follow Python int truthiness (0 is omitted).  The anime
type/status/rating enumerations live in the missing `anime/constants.py`,
so their wire values are carried here as plain strings. -/
def buildAnimeSearchUrl (query : String)
    (anime_type anime_status rated : Option String)
    (score producer : Option Int)
    (start_date end_date : Option PyDate)
    (include_genres exclude_genres : Option (List Int)) : String :=
  let query_params : List (String × String) :=
    (if query ≠ "" ∧ pyStrip query ≠ "" then [("q", pyReplace query " " "+")] else [])
    ++ (match anime_type with | some t => [("type", t)] | none => [])
    ++ (match anime_status with | some st => [("status", st)] | none => [])
    ++ (match rated with | some r => [("r", r)] | none => [])
    ++ (if truthyOptInt score then [("score", toString (score.getD 0))] else [])
    ++ (if truthyOptInt producer then [("p", toString (producer.getD 0))] else [])
    ++ (match start_date with
        | some d => [("sd", toString d.day), ("sm", toString d.month), ("sy", toString d.year)]
        | none => [])
    ++ (match end_date with
        | some d => [("ed", toString d.day), ("em", toString d.month), ("ey", toString d.year)]
        | none => [])
  let genre_pairs : List (String × String) :=
    ((include_genres.getD []).map fun g => ("genre[]", toString g))
    ++ ((exclude_genres.getD []).map fun g => ("genre_ex[]", toString g))
  ANIME_URL ++ "?" ++ urlencode (query_params ++ genre_pairs)

/-! ## Sequential pagination (`search`, anime/parser.py 62-143) -/

/-- Modelled from the spec: `BaseSearchParser._add_offset_to_url` of the
missing `search_base.py` ("given a base listing URL and a numeric offset,
returns the URL for that paginated page", spec section 4.4).  The offset
parameter is named `show` (the name the character parser textually rewrites
to `limit` in top mode, characters/parser.py line 89); offset 0 is the base
page itself. -/
def addOffsetToUrl (base : String) (offset : Nat) : String :=
  if offset = 0 then base else base ++ "&show=" ++ toString offset

/-- Embeds `math.ceil(limit / MAL_PAGE_SIZE)` for a positive `limit`. -/
def numPagesToFetch (limit : Int) : Nat :=
  (limit.toNat + MAL_PAGE_SIZE - 1) / MAL_PAGE_SIZE

/-- The page loop of `MALAnimeParser.search` (anime/parser.py 110-142):
stop before fetching when the limit is already reached; fetch the offset
page (a failed fetch ends the loop); append parsed rows up to the limit;
stop when the limit is reached; otherwise sleep 0.5 between consecutive
planned fetches (only when another page remains).  `parsePage` stands for
`_parse_search_results_page(soup, limit, ...)` of the missing
`search_base.py`, modelled from the spec as the rows it extracts from one
page.  Returns the accumulated rows and the effect trace. -/
def searchPagesLoop {α : Type} (fetch : String → Option Html)
    (parsePage : Html → Int → List α) (base : String) (limit : Int)
    (numPages : Nat) : List Nat → List α → List α × List Effect
  | [], acc => (acc, [])
  | page_index :: restIdx, acc =>
    let offset := page_index * MAL_PAGE_SIZE
    if (acc.length : Int) ≥ limit then (acc, [])
    else
      let page_url := addOffsetToUrl base offset
      match fetch page_url with
      | none => (acc, [Effect.fetchPage page_url])
      | some soup =>
        let parsed := parsePage soup limit
        let acc2 := acc ++ parsed.take (limit - acc.length).toNat
        if (acc2.length : Int) ≥ limit then (acc2, [Effect.fetchPage page_url])
        else if page_index < numPages - 1 then
          let rest := searchPagesLoop fetch parsePage base limit numPages
            restIdx acc2
          (rest.1, Effect.fetchPage page_url :: Effect.sleepHalf :: rest.2)
        else
          let rest := searchPagesLoop fetch parsePage base limit numPages
            restIdx acc2
          (rest.1, Effect.fetchPage page_url :: rest.2)

/-- Embeds `MALAnimeParser.search` (anime/parser.py 62-143): an empty query
or a non-positive limit short-circuits to an empty list with no fetch;
otherwise the search URL is built and `ceil(limit / 50)` pages are walked
by `searchPagesLoop`. -/
def animeSearch {α : Type} (fetch : String → Option Html)
    (parsePage : Html → Int → List α) (query : String) (limit : Int)
    (anime_type anime_status rated : Option String)
    (score producer : Option Int)
    (start_date end_date : Option PyDate)
    (include_genres exclude_genres : Option (List Int)) :
    List α × List Effect :=
  if query = "" then ([], [])
  else if limit ≤ 0 then ([], [])
  else
    let base := buildAnimeSearchUrl query anime_type anime_status rated
      score producer start_date end_date include_genres exclude_genres
    searchPagesLoop fetch parsePage base limit (numPagesToFetch limit)
      (List.range (numPagesToFetch limit)) []

/-! ## `MALAnimeParser.get` (anime/parser.py 28-60) -/

/-- Embeds `MALAnimeParser.get`: a falsy or non-positive id returns `None`;
otherwise the details URL is rendered with
`constants.ANIME_DETAILS_URL.format(anime_id=anime_id)` — note that
`ANIME_DETAILS_URL` is, after the module-level rebinding at constants.py
line 26, the character template `"/character/{character_id}"` — the page is
fetched, and the details-page orchestrator (`_parse_details_page` of
`details_base.py`, here a parameter) runs under a try/except that converts
any exception to `None`.  A `KeyError` from `.format` at line 36 is outside
that try block and propagates. -/
def animeGet {α : Type} (fetch : String → Option Html)
    (parseDetailsPage : Html → Int → String → Except PyErr (Option α))
    (anime_id : Int) : Except PyErr (Option α) × List Effect :=
  if anime_id = 0 ∨ anime_id ≤ 0 then (Except.ok none, [])
  else
    match pyFormat ANIME_DETAILS_URL [("anime_id", toString anime_id)] with
    | Except.error e => (Except.error e, [])
    | Except.ok details_url =>
      match fetch details_url with
      | none => (Except.ok none, [Effect.fetchPage details_url])
      | some soup =>
        match parseDetailsPage soup anime_id details_url with
        | Except.ok d => (Except.ok d, [Effect.fetchPage details_url])
        | Except.error _ => (Except.ok none, [Effect.fetchPage details_url])

/-! ## `MALAnimeParser.top` (anime/parser.py 181-259) -/

/-- The Python member name of each `TopType` value (`top_type.name`). -/
def TopType.pyName : TopType → String
  | .MOST_POPULAR => "MOST_POPULAR"
  | .MOST_FAVORITED => "MOST_FAVORITED"
  | .AIRING => "AIRING"
  | .UPCOMING => "UPCOMING"
  | .TV_SERIES => "TV_SERIES"
  | .MOVIES => "MOVIES"
  | .OVAS => "OVAS"
  | .ONAS => "ONAS"
  | .SPECIAL => "SPECIAL"
  | .ALL_MANGA => "ALL_MANGA"
  | .ONE_SHOTS => "ONE_SHOTS"
  | .DOUJIN => "DOUJIN"
  | .LIGHT_NOVELS => "LIGHT_NOVELS"
  | .NOVELS => "NOVELS"
  | .MANHWA => "MANHWA"
  | .MANHUA => "MANHUA"

/-- The alternatives of the anchored type/episodes regex
`^(TV Special|TV|OVA|ONA|Movie|Music)...` of
`parse_anime_top_info_string`, in alternation order. -/
def topTypeLits : List String := ["TV Special", "TV", "OVA", "ONA", "Movie", "Music"]

/-- Anchored match of
`^(TV Special|TV|OVA|ONA|Movie|Music)\\s*(?:\\((\\d+)\\s+eps?\\))?`
(anime/parser.py 195-196): the first alternative that is a prefix wins,
then optional whitespace, then an optional `"(N eps)"` group whose digits
become group 2 (absent when the parenthesised part does not fully match). -/
def matchTopTypeEps (s : String) : Option (String × Option String) :=
  match topTypeLits.find? (fun lit => pyStartsWith s lit) with
  | none => none
  | some lit =>
    let after := s.data.drop lit.data.length
    let afterWs := after.dropWhile Char.isWhitespace
    let eps : Option String :=
      match afterWs with
      | '(' :: t =>
        let ds := t.takeWhile Char.isDigit
        if ds = [] then none
        else
          let t2 := t.drop ds.length
          let ws := t2.takeWhile Char.isWhitespace
          if ws = [] then none
          else
            match t2.drop ws.length with
            | 'e' :: 'p' :: 's' :: ')' :: _ => some ⟨ds⟩
            | 'e' :: 'p' :: ')' :: _ => some ⟨ds⟩
            | _ => none
      | _ => none
    some (lit, eps)

/-- One attempt of the optional date-range tail
`(?:\\s+-\\s+[A-Za-z]{3}\\s+\\d{4})?` at a position; returns the consumed
characters. -/
def matchDateRangeTail (l : List Char) : Option (List Char) :=
  let ws1 := l.takeWhile Char.isWhitespace
  if ws1 = [] then none
  else
    match l.drop ws1.length with
    | '-' :: r =>
      let ws2 := r.takeWhile Char.isWhitespace
      if ws2 = [] then none
      else
        match r.drop ws2.length with
        | a :: b :: c :: r2 =>
          if a.isAlpha ∧ b.isAlpha ∧ c.isAlpha then
            let ws3 := r2.takeWhile Char.isWhitespace
            if ws3 = [] then none
            else
              let ds := (r2.drop ws3.length).takeWhile Char.isDigit
              if ds.length ≥ 4 then
                some (ws1 ++ '-' :: ws2 ++ a :: b :: c :: ws3 ++ ds.take 4)
              else none
          else none
        | _ => none
    | _ => none

/-- One attempt of the date-span group
`[A-Za-z]{3}\\s+\\d{4}(?:\\s+-\\s+[A-Za-z]{3}\\s+\\d{4})?` at a position. -/
def matchDateSpanAt (l : List Char) : Option (List Char) :=
  match l with
  | a :: b :: c :: rest =>
    if a.isAlpha ∧ b.isAlpha ∧ c.isAlpha then
      let ws := rest.takeWhile Char.isWhitespace
      if ws = [] then none
      else
        let r2 := rest.drop ws.length
        let ds := r2.takeWhile Char.isDigit
        if ds.length ≥ 4 then
          let core := a :: b :: c :: ws ++ ds.take 4
          match matchDateRangeTail (r2.drop 4) with
          | some rng => some (core ++ rng)
          | none => some core
        else none
    else none
  | _ => none

/-- Leftmost search for the date span (group 1 of the second regex at
anime/parser.py 203-204; its optional `eps?\\)` lead-in and trailing member
count do not change which date span is captured). -/
def findDateSpan (s : String) : Option String :=
  go s.data
where
  go : List Char → Option String
    | [] => none
    | l@(_ :: rest) =>
      match matchDateSpanAt l with
      | some g => some (⟨g⟩ : String)
      | none => go rest

/-- The result dict of `parse_anime_top_info_string`. -/
structure TopInfoParsed where
  type : Option String
  episodes : Option Int
  aired_on : Option String
deriving DecidableEq, Repr

/-- Embeds `parse_anime_top_info_string` (anime/parser.py 188-208). -/
def parse_anime_top_info_string (info_text : String) : TopInfoParsed :=
  let te := matchTopTypeEps info_text
  { type := te.map (·.1)
    episodes := match te with
      | some (_, d) => parseInt d
      | none => none
    aired_on := (findDateSpan info_text).map pyStrip }

/-- Modelled from the spec: the per-row common data returned by
`_parse_top_list_rows` of the missing `search_base.py` (spec section 4.4:
"rank, id, title, URL, image, score, and an opaque raw info string").  The
score is kept as its raw string (floats are outside this embedding; no
claim reads it). -/
structure TopRow where
  rank : Option Int
  mal_id : Option Int
  title : Option String
  url : Option String
  image_url : Option String
  score : Option String
  raw_info_text : String
deriving DecidableEq, Repr

/-- Embeds `TopAnimeItem` (anime/types.py 32-39).  The `type` field of the
missing `animeTypeMixin` coercion (whose backing labels the spec leaves
open) is carried as the raw label string. -/
structure TopAnimeItem where
  mal_id : Int
  url : String
  image_url : Option String
  type : Option String
  rank : Int
  title : String
  score : Option String
  episodes : Option Int
  aired_on : Option String
deriving DecidableEq, Repr

/-- Constructing `TopAnimeItem(**item_data)` through pydantic: `rank`,
`title`, `mal_id` and `url` are required; the URL and image mixins
validate/canonicalize as in `types.py`. -/
def TopAnimeItem.make (row : TopRow) (specific : TopInfoParsed) :
    Except PyErr TopAnimeItem :=
  match row.rank, row.mal_id, row.title, row.url with
  | some rank, some mal_id, some title, some url => do
    let u ← validateUrl url
    let img ← validateImageUrl row.image_url
    Except.ok ⟨mal_id, u, img, specific.type, rank, title, row.score,
      specific.episodes, specific.aired_on⟩
  | _, _, _, _ => Except.error "ValidationError: missing required field"

/-- The row loop of `MALAnimeParser.top` (anime/parser.py 236-250): stop at
the limit; a row failing validation is skipped (logged) and processing
continues. -/
def processTopRows (limit : Int) : List TopRow → List TopAnimeItem → List TopAnimeItem
  | [], acc => acc
  | row :: rest, acc =>
    if (acc.length : Int) ≥ limit then acc
    else
      match TopAnimeItem.make row (parse_anime_top_info_string row.raw_info_text) with
      | Except.ok item => processTopRows limit rest (acc ++ [item])
      | Except.error _ => processTopRows limit rest acc

/-- The page loop of `MALAnimeParser.top` (anime/parser.py 227-255):
`page_size = 50`; a failed page fetch ends the loop; the 0.5 sleep is
inserted only when the limit is not yet reached and another page remains. -/
def topPagesLoop (getTopListPage : String → Option String → Nat → Option Html)
    (parseTopListRows : Html → List TopRow) (limit : Int)
    (type_value : Option String) (numPages : Nat) :
    List Nat → List TopAnimeItem → List TopAnimeItem × List Effect
  | [], acc => (acc, [])
  | page_index :: restIdx, acc =>
    let offset := page_index * 50
    let ev := Effect.fetchTopListPage "/topanime.php" type_value offset
    match getTopListPage "/topanime.php" type_value offset with
    | none => (acc, [ev])
    | some soup =>
      let acc2 := processTopRows limit (parseTopListRows soup) acc
      if (acc2.length : Int) ≥ limit then (acc2, [ev])
      else if page_index < numPages - 1 then
        let rest := topPagesLoop getTopListPage parseTopListRows limit
          type_value numPages restIdx acc2
        (rest.1, ev :: Effect.sleepHalf :: rest.2)
      else
        let rest := topPagesLoop getTopListPage parseTopListRows limit
          type_value numPages restIdx acc2
        (rest.1, ev :: rest.2)

/-- Embeds `MALAnimeParser.top` (anime/parser.py 181-259): a non-positive
limit returns an empty list; a manga-specific `top_type` raises
`ValueError` before any page fetch (the source message quotes
`top_type.name`); otherwise `ceil(limit / 50)` ranked pages are walked and
the result is truncated to `limit`. -/
def animeTop (getTopListPage : String → Option String → Nat → Option Html)
    (parseTopListRows : Html → List TopRow) (limit : Int)
    (top_type : Option TopType) :
    Except PyErr (List TopAnimeItem) × List Effect :=
  if limit ≤ 0 then (Except.ok [], [])
  else
    match top_type with
    | some t =>
      if TopType.is_manga_specific t then
        (Except.error ("ValueError: Filter " ++ t.pyName ++
          " is specific to manga and cannot be used for top anime."), [])
      else
        let r := topPagesLoop getTopListPage parseTopListRows limit
          (some t.value) (numPagesToFetch limit)
          (List.range (numPagesToFetch limit)) []
        (Except.ok (r.1.take limit.toNat), r.2)
    | none =>
      let r := topPagesLoop getTopListPage parseTopListRows limit
        none (numPagesToFetch limit) (List.range (numPagesToFetch limit)) []
      (Except.ok (r.1.take limit.toNat), r.2)

/-! ## Character domain entities

The defining module `characters/types.py` is not present under `src/`;
these records are modelled from the spec (section 3, "Character entities",
reconstructed there from call-site usage). -/

/-- Modelled from the spec: `RelatedMediaItem` (id, name, URL, role label,
media kind "anime"/"manga"). -/
structure RelatedMediaItem where
  mal_id : Int
  name : String
  url : String
  role : String
  type : String
deriving DecidableEq, Repr

/-- Modelled from the spec: `VoiceActorItem` (id, name, URL, language
label, optional image, fixed kind "person"). -/
structure VoiceActorItem where
  mal_id : Int
  name : String
  url : String
  language : String
  image_url : Option String
  type : String
deriving DecidableEq, Repr

/-- Modelled from the spec: `CharacterDetails` (id, URL, optional image,
favorites count, primary name, optional alternate name, optional Japanese
name, free-text about narrative, animeography and mangaography lists,
voice-actor list).  The spec flags the exact optional/required boundaries
as reconstructed; id, URL and the primary name are taken as required, the
rest optional/defaulted, matching how the parser treats them. -/
structure CharacterDetails where
  mal_id : Int
  url : String
  image_url : Option String
  favorites : Option Int
  name : String
  name_alt : Option String
  name_japanese : Option String
  about : String
  animeography : List RelatedMediaItem
  mangaography : List RelatedMediaItem
  voice_actors : List VoiceActorItem
deriving DecidableEq, Repr

/-- Modelled from the spec: constructing `CharacterDetails(**data)` through
the record-validation capability: the URL and image run through the mixins
of `types.py`, and a missing primary name is a `ValidationError`. -/
def CharacterDetails.make (mal_id : Int) (url : String) (image_url : String)
    (favorites : Option Int) (name : Option String)
    (name_alt name_japanese : Option String) (about : String)
    (animeography mangaography : List RelatedMediaItem)
    (voice_actors : List VoiceActorItem) : Except PyErr CharacterDetails := do
  let u ← validateUrl url
  let img ← validateImageUrl (some image_url)
  match name with
  | none => Except.error "ValidationError: name required"
  | some nm =>
    Except.ok ⟨mal_id, u, img, favorites, nm, name_alt, name_japanese,
      about, animeography, mangaography, voice_actors⟩

/-! ## `MALCharactersParser._parse_character_details_page`
(characters/parser.py 153-435) -/

/-- The sidebar portrait lookup (characters/parser.py 197-205): an anchor
whose `href` contains `/pics`, its `portrait-225x350` image (falling back
to any such image in the sidebar), preferring `data-src` over `src`. -/
def characterSidebarImage (left : Html) : String :=
  let img_link := left.findP fun n =>
    n.isTag && n.name == "a" && pyContains (n.attr "href") "/pics"
  let img_tag :=
    match safeFind img_link (fun n => n.name == "img" && n.hasClass "portrait-225x350") with
    | some t => some t
    | none => left.findP fun n => n.name == "img" && n.hasClass "portrait-225x350"
  let v := getAttr img_tag "data-src"
  if v ≠ "" then v else getAttr img_tag "src"

/-- Group 1 of `re.search(r"Member Favorites:\\s*([\\d,]+)", s)`. -/
def memberFavoritesGroup (s : String) : Option String :=
  go s.data
where
  go : List Char → Option String
    | [] => none
    | l@(_ :: rest) =>
      if "Member Favorites:".data.isPrefixOf l then
        let after := (l.drop "Member Favorites:".data.length).dropWhile Char.isWhitespace
        let ds := after.takeWhile fun c => c.isDigit ∨ c = ','
        if ds ≠ [] then some (⟨ds⟩ : String) else go rest
      else go rest

/-- The favorites lookup (characters/parser.py 210-217):
`left_sidebar.find(string=re.compile(...))` — the first text node matching
the regex — then the captured count through `_parse_int`. -/
def characterFavorites (left : Html) : Option Int :=
  match (left.texts.filterMap memberFavoritesGroup).head? with
  | some g => parseInt (some g)
  | none => none

/-- One "-ography" table (characters/parser.py 247-270): rows with exactly
two cells; the info cell (index 1) yields link, name, id via the domain
pattern, and a capitalized role; Python-truthy id/name/url/role are all
required; relative URLs are absolutized.  The modelled `RelatedMediaItem`
construction validates the URL as `urlMixin` does. -/
def parseOgraphyTable (table : Html) (id_pattern : String → Option Int)
    (item_type : String) : List RelatedMediaItem :=
  (table.findAllP fun n => n.name == "tr").filterMap fun row =>
    match safeFindAll (some row) (fun n => n.name == "td") with
    | [_, info_cell] =>
      let link_tag := safeFind (some info_cell) fun n => n.name == "a"
      let role_tag := safeFind (some info_cell) fun n => n.name == "small"
      let media_url := getAttr link_tag "href"
      let media_name := getText link_tag
      let media_id := if media_url ≠ "" then extractIdFromUrl media_url id_pattern else none
      let role := pyCapitalize (getText role_tag)
      match media_id with
      | some m =>
        if m ≠ 0 ∧ media_name ≠ "" ∧ media_url ≠ "" ∧ role ≠ "" then
          let abs_url := if pyStartsWith media_url "/"
            then "https://myanimelist.net" ++ media_url else media_url
          match validateUrl abs_url with
          | Except.ok u => some ⟨m, media_name, u, role, item_type⟩
          | Except.error _ => none
        else none
      | none => none
    | _ => none

/-- The Animeography / Mangaography walk (characters/parser.py 219-274):
for each `div.normal_header` in the sidebar, a header whose text contains
"Animeography" (resp. "Mangaography") contributes the rows of the table
immediately following it, with the anime (resp. manga) id pattern. -/
def characterOgraphies (left : Html) :
    List RelatedMediaItem × List RelatedMediaItem :=
  (left.findAllCtxP fun n => n.name == "div" && n.hasClass "normal_header").foldl
    (fun acc hdr =>
      let header_text := hdr.1.getTextStripped
      if pyContains header_text "Animeography" then
        match Html.nextSiblingTag hdr.2.1 "table" with
        | some table => (acc.1 ++ parseOgraphyTable table ANIME_ID_PATTERN "anime", acc.2)
        | none => acc
      else if pyContains header_text "Mangaography" then
        match Html.nextSiblingTag hdr.2.1 "table" with
        | some table => (acc.1, acc.2 ++ parseOgraphyTable table MANGA_ID_PATTERN "manga")
        | none => acc
      else acc)
    ([], [])

/-- Text contributed by one node of the about walk
(characters/parser.py 326-341): raw strings as they stand, `br` as a
newline, spoiler divs as a bracketed block of their `spoiler_content`
(nothing when that span is missing), `input`/`script`/`style` skipped,
every other tag as its raw text. -/
def aboutNodeText (node : Html) : String :=
  match node with
  | Html.text s => s
  | n =>
    if n.name = "br" then "\n"
    else if n.name = "div" ∧ n.hasClass "spoiler" then
      match safeFind (some n) (fun m => m.name == "span" && m.hasClass "spoiler_content") with
      | some sc => "\n[SPOILER]\n" ++ sc.getTextSep "\n" ++ "\n[/SPOILER]\n"
      | none => ""
    else if ¬ (["input", "script", "style"].contains n.name) then n.getTextRaw
    else ""

/-- The about walk (characters/parser.py 309-344) over the siblings that
follow the name heading: stop at a `normal_header` tag containing "Voice
Actors", at an ad block, or — the parent guard of line 322 — as soon as a
tag is seen while the heading sits more than one level below the right
column (`parentDepth` is the heading's ancestor count below the column;
all walked siblings share it). -/
def aboutWalk (parentDepth : Nat) : List Html → List String
  | [] => []
  | node :: rest =>
    if node.isTag ∧ node.hasClass "normal_header" ∧
        pyContains node.getTextStripped "Voice Actors" then []
    else if node.isTag ∧
        (pyContains (node.attr "id") "ad-unit" ∨ node.hasClass "sUaidzctQfngSNMH-pdatla") then []
    else if node.isTag ∧ 2 ≤ parentDepth then []
    else aboutNodeText node :: aboutWalk parentDepth rest

/-- Embeds `re.sub(r'\\n\\s*\\n', '\\n\\n', s)`: each newline followed by
a whitespace run that still holds a newline collapses, greedily up to the
last newline of the run, into exactly two newlines. -/
def collapseBlankRuns (s : String) : String :=
  ⟨go s.data s.data.length⟩
where
  lastNewlineIdx (l : List Char) : Option Nat :=
    (l.reverse.findIdx? (· = '\n')).map fun j => l.length - 1 - j
  go (l : List Char) : Nat → List Char
    | 0 => l
    | fuel + 1 =>
      match l with
      | [] => []
      | '\n' :: rest =>
        let ws := rest.takeWhile Char.isWhitespace
        match lastNewlineIdx ws with
        | some i => '\n' :: '\n' :: go (rest.drop (i + 1)) fuel
        | none => '\n' :: go rest fuel
      | c :: rest => c :: go rest fuel

/-- One voice-actor table (characters/parser.py 362-400): its first row
must have exactly two cells; portrait from the image cell, name/URL/id via
the person pattern and language from the info cell; Python-truthy
id/name/url/language required; the modelled `VoiceActorItem` construction
runs the URL and image mixins. -/
def parseVaTable (table : Html) : Option VoiceActorItem :=
  match safeFind (some table) (fun n => n.name == "tr") with
  | none => none
  | some row =>
    match safeFindAll (some row) (fun n => n.name == "td") with
    | [img_cell, info_cell] =>
      let img_tag := safeFind (some img_cell) fun n => n.name == "img"
      let va_image_url :=
        let v := getAttr img_tag "data-src"
        if v ≠ "" then v else getAttr img_tag "src"
      let va_link := safeFind (some info_cell) fun n => n.name == "a"
      let va_name := getText va_link
      let va_url := getAttr va_link "href"
      let va_id := if va_url ≠ "" then extractIdFromUrl va_url PERSON_ID_PATTERN else none
      let lang_tag := safeFind (some info_cell) fun n => n.name == "small"
      let language := getText lang_tag
      match va_id with
      | some v =>
        if v ≠ 0 ∧ va_name ≠ "" ∧ va_url ≠ "" ∧ language ≠ "" then
          let abs_va_url := if pyStartsWith va_url "/"
            then "https://myanimelist.net" ++ va_url else va_url
          match validateUrl abs_va_url, validateImageUrl (some va_image_url) with
          | Except.ok u, Except.ok img => some ⟨v, va_name, u, language, img, "person"⟩
          | _, _ => none
        else none
      | none => none
    | _ => none

/-- The voice-actor walk (characters/parser.py 350-408): from the
`div.normal_header` whose string is exactly "Voice Actors", iterate
`find_next_sibling("table")`; the walk stops at once when the tables lie
inside a nested `td` (the `find_parent("td") != right_content` guard);
tables whose shape does not fit are skipped. -/
def characterVoiceActors (right : Html) : List VoiceActorItem :=
  match right.findCtxP (fun n =>
      n.name == "div" && n.hasClass "normal_header" &&
      n.nodeString == some "Voice Actors") with
  | none => []
  | some ctx => vaWalk (ctx.2.2.contains "td") ctx.2.1
where
  vaWalk (outside : Bool) : List Html → List VoiceActorItem
    | [] => []
    | s :: rest =>
      if s.isTag && s.name == "table" then
        if outside then []
        else
          match parseVaTable s with
          | some item => item :: vaWalk outside rest
          | none => vaWalk outside rest
      else vaWalk outside rest

/-- Embeds `_parse_character_details_page` (characters/parser.py 153-435):
locate the two layout columns under `div#content` (both required, else
`None` and no side effect); then — the debug leftover at lines 188-192 —
open `debug.html` for writing; parse the sidebar (portrait, favorites,
ographies) and the right column (name heading with alternate/Japanese
names, about walk, voice actors); absolutize the URLs and run the final
record validation, a failure of which yields `None`.  Returns the record
(or `None`) with the effect trace. -/
def parseCharacterDetailsPage (soup : Html) (character_id : Int)
    (character_url : String) : Option CharacterDetails × List Effect :=
  let content_div := safeFind (some soup) fun n => n.name == "div" && n.attr "id" == "content"
  let main_table := match content_div with
    | some cd => cd.findChildP fun n => n.name == "table"
    | none => none
  let main_tr := match main_table with
    | some t => t.findChildP fun n => n.name == "tr"
    | none => none
  let main_tds := match main_tr with
    | some tr => tr.findChildrenP fun n => n.name == "td"
    | none => []
  match main_tds.head?, main_tds.get? 1 with
  | some left, some right =>
    let image_url := characterSidebarImage left
    let favorites := characterFavorites left
    let og := characterOgraphies left
    let name_ctx := right.findCtxP fun n => n.name == "h2" && n.hasClass "normal_header"
    let nameData : Option String × Option String × Option String :=
      match name_ctx with
      | some ctx =>
        let texts := ctx.1.strippedStrings
        let name := texts.head?
        let full := ctx.1.getTextStripped
        let name_alt :=
          match name with
          | some nm =>
            if nm ≠ "" ∧ pyContains full nm then
              let a1 := pyStrip (pyReplace full nm "")
              let a2 := pyStrip ⟨a1.data.dropWhile fun c => c.isWhitespace ∨ c = '(' ∨ c = '"'⟩
              let a3 := pyStrip ⟨(a2.data.reverse.dropWhile fun c => c.isWhitespace ∨ c = ')' ∨ c = '"').reverse⟩
              if a3 ≠ "" then some a3 else none
            else none
          | none => none
        let name_japanese :=
          match safeFind (some ctx.1) (fun n => n.name == "small") with
          | some t => some (pyStripChars t.getTextStripped ['(', ')'])
          | none => none
        (name, name_alt, name_japanese)
      | none => (some ("Unknown Name (ID: " ++ toString character_id ++ ")"), none, none)
    let about :=
      match name_ctx with
      | some ctx =>
        pyStrip (collapseBlankRuns (String.join (aboutWalk ctx.2.2.length ctx.2.1)))
      | none => pyStrip (collapseBlankRuns "")
    let voice_actors := characterVoiceActors right
    let url2 := if character_url ≠ "" ∧ pyStartsWith character_url "/"
      then "https://myanimelist.net" ++ character_url else character_url
    let image2 := if image_url ≠ "" ∧ pyStartsWith image_url "/"
      then "https://myanimelist.net" ++ image_url else image_url
    match CharacterDetails.make character_id url2 image2 favorites
      nameData.1 nameData.2.1 nameData.2.2 about og.1 og.2 voice_actors with
    | Except.ok d => (some d, [Effect.fileWrite "debug.html"])
    | Except.error _ => (none, [Effect.fileWrite "debug.html"])
  | _, _ => (none, [])

/-! ## `MALCharactersParser.get` (characters/parser.py 145-151) -/

/-- Embeds `MALCharactersParser.get`: no id validation of any kind — the
details URL is rendered with
`constants.ANIME_DETAILS_URL.format(character_id=character_id)` (after the
constants rebinding that template is `"/character/{character_id}"`, so the
render succeeds for every integer), the page is fetched, and a failed
fetch or a `None` from the page parser yields `None`. -/
def charactersGet (fetch : String → Option Html) (character_id : Int) :
    Except PyErr (Option CharacterDetails) × List Effect :=
  match pyFormat ANIME_DETAILS_URL [("character_id", toString character_id)] with
  | Except.error e => (Except.error e, [])
  | Except.ok url =>
    match fetch url with
    | none => (Except.ok none, [Effect.fetchPage url])
    | some soup =>
      let r := parseCharacterDetailsPage soup character_id url
      (Except.ok r.1, Effect.fetchPage url :: r.2)

/-! ## Concrete example documents for evaluation -/

/-- A minimal character details page: `div#content` holding the two-column
table, a sidebar with a favorites count, and a right column whose name
heading reads "Taro Yamada". -/
def exampleCharacterPage : Html :=
  Html.tag "html" [] [
    Html.tag "div" [("id", "content")] [
      Html.tag "table" [] [
        Html.tag "tr" [] [
          Html.tag "td" [] [Html.text "Member Favorites: 1,234"],
          Html.tag "td" [] [
            Html.tag "h2" [("class", "normal_header")] [Html.text "Taro Yamada"]]]]]]

/-- A trivial page used where an oracle only needs to return something. -/
def blankPage : Html := Html.tag "html" [] []

end Mal4u

/-! ## Helper lemmas -/

namespace Mal4u

/-- Rendering the (re-bound) details template with a `character_id` keyword
always succeeds and yields the character path. -/
theorem pyFormat_character_template (s : String) :
    pyFormat ANIME_DETAILS_URL [("character_id", s)]
      = Except.ok ("/character/" ++ s) := rfl

end Mal4u

namespace Mal4u

/-- One non-final iteration of the search page loop: the limit is not yet
reached, the fetch succeeds, the limit is still not reached after the page,
and another page remains — so the loop records the fetch and the 0.5 sleep
and continues. -/
theorem searchPagesLoop_cons_continue {α : Type} (fetch : String → Option Html)
    (parsePage : Html → Int → List α) (base : String) (limit : Int)
    (numPages : Nat) (idx : Nat) (restIdx : List Nat) (acc : List α)
    (soup : Html)
    (hacc : (acc.length : Int) < limit)
    (hf : fetch (addOffsetToUrl base (idx * MAL_PAGE_SIZE)) = some soup)
    (hacc2 : ((acc ++ (parsePage soup limit).take ((limit - acc.length).toNat)).length : Int) < limit)
    (hidx : idx < numPages - 1) :
    searchPagesLoop fetch parsePage base limit numPages (idx :: restIdx) acc
      = ((searchPagesLoop fetch parsePage base limit numPages restIdx
            (acc ++ (parsePage soup limit).take ((limit - acc.length).toNat))).1,
         Effect.fetchPage (addOffsetToUrl base (idx * MAL_PAGE_SIZE))
           :: Effect.sleepHalf
           :: (searchPagesLoop fetch parsePage base limit numPages restIdx
            (acc ++ (parsePage soup limit).take ((limit - acc.length).toNat))).2) := by
  simp only [searchPagesLoop, hf]
  rw [if_neg (by omega), if_neg (by omega), if_pos hidx]

/-- The final planned iteration of the search page loop: the fetch is
recorded with no trailing sleep, whether or not the limit is reached by the
page. -/
theorem searchPagesLoop_singleton_last {α : Type} (fetch : String → Option Html)
    (parsePage : Html → Int → List α) (base : String) (limit : Int)
    (numPages : Nat) (idx : Nat) (acc : List α) (soup : Html)
    (hacc : (acc.length : Int) < limit)
    (hf : fetch (addOffsetToUrl base (idx * MAL_PAGE_SIZE)) = some soup)
    (hidx : ¬ (idx < numPages - 1)) :
    searchPagesLoop fetch parsePage base limit numPages [idx] acc
      = (acc ++ (parsePage soup limit).take ((limit - acc.length).toNat),
         [Effect.fetchPage (addOffsetToUrl base (idx * MAL_PAGE_SIZE))]) := by
  simp only [searchPagesLoop, hf]
  rw [if_neg (by omega), if_neg hidx]
  split <;> rfl

end Mal4u

/-! ## Claim theorems -/

/-- C7: for every value of the `TopType` enumeration, exactly one of the
three membership predicates `is_anime_specific`, `is_manga_specific` and
`is_common` is true; no value is unclassified or doubly classified. -/
theorem topType_classification_partition (t : Mal4u.TopType) :
    (Mal4u.TopType.is_anime_specific t).toNat
      + (Mal4u.TopType.is_manga_specific t).toNat
      + (Mal4u.TopType.is_common t).toNat = 1 := by
  cases t <;> decide

/-- C1, evaluated at the failing input `anime_id = 1`: because
`ANIME_DETAILS_URL` is re-bound at constants.py line 26 to
`"/character/{character_id}"`, the anime `get` raises
`KeyError("character_id")` while rendering the URL — before any fetch —
instead of fetching `/anime/1` and returning absent on failure.  (The
fetch oracle and the details orchestrator are immaterial: the trace is
empty.) -/
theorem anime_get_raises_keyError_before_any_fetch :
    Mal4u.animeGet (α := Unit) (fun _ => some Mal4u.blankPage)
        (fun _ _ _ => Except.ok none) 1
      = (Except.error "KeyError: character_id", []) ∧
    Mal4u.ANIME_DETAILS_URL = "/character/{character_id}" :=
  ⟨rfl, rfl⟩

/-- C2, evaluated at the failing input: a forward-sibling anchor with
name "Taro", href "/people/11/Taro" and an id (11) parseable by the
supplied default pattern is NOT included in the result — the guessed
link-kind "person" fails the `Optional[Literal[&apos;season&apos;, &apos;producer&apos;]]`
declaration of `LinkItem.type` (types.py line 46), so the constructed
record is rejected and the anchor skipped.  An identical anchor whose
href guesses "producer" IS included, showing the loss is caused by the
narrow tag vocabulary, not by the walk itself. -/
theorem parse_link_list_drops_person_tagged_anchor :
    Mal4u.parseLinkList
        [Mal4u.Html.tag "a" [("href", "/people/11/Taro")] [Mal4u.Html.text "Taro"]]
        "div" Mal4u.defaultLinkListPattern = [] ∧
    Mal4u.parseLinkList
        [Mal4u.Html.tag "a" [("href", "/anime/producer/14/Sunrise")] [Mal4u.Html.text "Sunrise"]]
        "div" (Mal4u.regexSearchLitDigits ["/anime/producer/"] true)
      = [{ mal_id := 14, url := "https://myanimelist.net/anime/producer/14/Sunrise",
           name := "Sunrise", type := some "producer" }] :=
  ⟨rfl, rfl⟩

/-- C4, evaluated at the failing input "#12": the manga statistics rank
extraction computes `_parse_int("#12".split(&apos;#&apos;)[-1].split(&apos;2&apos;)[0])`
(manga/parser.py line 178), whose `.split(&apos;2&apos;)[0]` truncates the digits at
the first &apos;2&apos;, giving rank 1 instead of the claimed 12; on a rank text
free of the digit 2 ("#13") the extraction does return the number after
the leading &apos;#&apos;. -/
theorem manga_rank_truncated_at_digit_two :
    Mal4u.mangaStatisticsRank (some "#12") = some 1 ∧
    Mal4u.mangaStatisticsRank (some "#13") = some 13 :=
  ⟨rfl, rfl⟩

/-- C6: calling the anime top-list operation with any manga-only `TopType`
filter kind (and a positive limit — the source checks `limit <= 0` first
and degrades that case to an empty list) raises the invalid-input
`ValueError` and performs zero network fetches: the effect trace is empty. -/
theorem anime_top_rejects_manga_specific_before_fetch
    (getTopListPage : String → Option String → Nat → Option Mal4u.Html)
    (parseTopListRows : Mal4u.Html → List Mal4u.TopRow)
    (limit : Int) (t : Mal4u.TopType)
    (hm : Mal4u.TopType.is_manga_specific t = true) (hl : 0 < limit) :
    Mal4u.animeTop getTopListPage parseTopListRows limit (some t)
      = (Except.error ("ValueError: Filter " ++ Mal4u.TopType.pyName t ++
          " is specific to manga and cannot be used for top anime."), []) := by
  have h : ¬ (limit ≤ 0) := by omega
  simp [Mal4u.animeTop, h, hm]

/-- Witness for C6 at `top_type = ALL_MANGA`, `limit = 50` (the default). -/
theorem anime_top_rejects_manga_specific_before_fetch_witness :
    Mal4u.animeTop (fun _ _ _ => none) (fun _ => []) 50
        (some Mal4u.TopType.ALL_MANGA)
      = (Except.error ("ValueError: Filter " ++
          Mal4u.TopType.pyName Mal4u.TopType.ALL_MANGA ++
          " is specific to manga and cannot be used for top anime."), []) :=
  anime_top_rejects_manga_specific_before_fetch _ _ 50 Mal4u.TopType.ALL_MANGA
    rfl (by norm_num)

/-- C8: constructing a URL-bearing entity from a site-relative path
(leading `/`) stores the path prefixed with `https://myanimelist.net`, and
constructing from an already-absolute http(s) URL stores it byte-identically
(the `HttpUrl` boundary capability is modelled per spec sections 3 and 6 as
storing the validated string unchanged). -/
theorem url_mixin_canonicalization (s : String) :
    (Mal4u.pyStartsWith s "/" = true →
      Mal4u.validateUrl s = Except.ok (Mal4u.MAL_DOMAIN ++ s)) ∧
    ((Mal4u.pyStartsWith s "http://" = true ∨
      Mal4u.pyStartsWith s "https://" = true) →
      Mal4u.validateUrl s = Except.ok s) := by
  constructor
  · intro h
    have h1 : "https://".data <+: Mal4u.MAL_DOMAIN.data := by decide
    have h2 : Mal4u.MAL_DOMAIN.data <+: (Mal4u.MAL_DOMAIN ++ s).data := by
      rw [String.data_append]
      exact List.prefix_append _ _
    have hp : Mal4u.pyStartsWith (Mal4u.MAL_DOMAIN ++ s) "https://" = true := by
      rw [Mal4u.pyStartsWith, List.isPrefixOf_iff_prefix]
      exact h1.trans h2
    simp [Mal4u.validateUrl, h, Mal4u.httpUrl, hp]
  · intro h
    have hslash : Mal4u.pyStartsWith s "/" = false := by
      rcases h with h | h <;>
      · rw [Mal4u.pyStartsWith, List.isPrefixOf_iff_prefix] at h
        obtain ⟨t, ht⟩ := h
        rw [Mal4u.pyStartsWith, ← ht]
        rfl
    rcases h with h | h <;> simp [Mal4u.validateUrl, hslash, Mal4u.httpUrl, h]

/-- Witness for C8 at a relative path and at an absolute URL. -/
theorem url_mixin_canonicalization_witness :
    Mal4u.pyStartsWith "/genre/1/Action" "/" = true ∧
    Mal4u.validateUrl "/genre/1/Action"
      = Except.ok (Mal4u.MAL_DOMAIN ++ "/genre/1/Action") ∧
    Mal4u.pyStartsWith "https://example.com/x" "https://" = true ∧
    Mal4u.validateUrl "https://example.com/x"
      = Except.ok "https://example.com/x" :=
  ⟨rfl, (url_mixin_canonicalization "/genre/1/Action").1 rfl, rfl,
   (url_mixin_canonicalization "https://example.com/x").2 (Or.inr rfl)⟩

/-- C9: the character `get` performs no positive-id validation: for every
integer `character_id` — zero and negatives included — it fetches the
character details URL built from that id (first and only network effect),
and returns absent exactly when the fetch fails or the page parse /
record validation returns absent. -/
theorem characters_get_no_id_validation (character_id : Int)
    (fetch : String → Option Mal4u.Html) :
    (Mal4u.charactersGet fetch character_id).2.head?
      = some (Mal4u.Effect.fetchPage ("/character/" ++ toString character_id)) ∧
    (fetch ("/character/" ++ toString character_id) = none →
      Mal4u.charactersGet fetch character_id
        = (Except.ok none,
           [Mal4u.Effect.fetchPage ("/character/" ++ toString character_id)])) ∧
    (∀ soup, fetch ("/character/" ++ toString character_id) = some soup →
      Mal4u.charactersGet fetch character_id
        = (Except.ok (Mal4u.parseCharacterDetailsPage soup character_id
             ("/character/" ++ toString character_id)).1,
           Mal4u.Effect.fetchPage ("/character/" ++ toString character_id)
             :: (Mal4u.parseCharacterDetailsPage soup character_id
             ("/character/" ++ toString character_id)).2)) ∧
    ((Mal4u.charactersGet fetch character_id).1 = Except.ok none ↔
      fetch ("/character/" ++ toString character_id) = none ∨
      ∃ soup, fetch ("/character/" ++ toString character_id) = some soup ∧
        (Mal4u.parseCharacterDetailsPage soup character_id
          ("/character/" ++ toString character_id)).1 = none) := by
  have hfmt := Mal4u.pyFormat_character_template (toString character_id)
  cases hf : fetch ("/character/" ++ toString character_id) with
  | none =>
    simp [Mal4u.charactersGet, hfmt, hf]
  | some soup =>
    simp [Mal4u.charactersGet, hfmt, hf]

/-- Witness for C9 at the negative id `-3` with a failing fetch. -/
theorem characters_get_no_id_validation_witness :
    (Mal4u.charactersGet (fun _ => none) (-3)).2.head?
      = some (Mal4u.Effect.fetchPage ("/character/" ++ toString (-3 : Int))) ∧
    Mal4u.charactersGet (fun _ => none) (-3)
      = (Except.ok none,
         [Mal4u.Effect.fetchPage ("/character/" ++ toString (-3 : Int))]) :=
  ⟨(characters_get_no_id_validation (-3) (fun _ => none)).1,
   (characters_get_no_id_validation (-3) (fun _ => none)).2.1 rfl⟩

/-- C3, evaluated at a failing input: the character `get` on a page with
both layout columns succeeds — yet its effect trace contains the write of
the file `debug.html` (the `open("debug.html", "w")` of
characters/parser.py lines 188-192), so a public operation of the library
does write a file, against the claimed no-file-output frame. -/
theorem characters_get_writes_debug_html :
    (Mal4u.charactersGet (fun _ => some Mal4u.exampleCharacterPage) 1).2
      = [Mal4u.Effect.fetchPage "/character/1",
         Mal4u.Effect.fileWrite "debug.html"] ∧
    (Mal4u.charactersGet (fun _ => some Mal4u.exampleCharacterPage) 1).1
      = Except.ok (some
          { mal_id := 1, url := "https://myanimelist.net/character/1",
            image_url := none, favorites := some 1234,
            name := "Taro Yamada", name_alt := none, name_japanese := none,
            about := "", animeography := [], mangaography := [],
            voice_actors := [] }) :=
  ⟨rfl, rfl⟩

/-- C10: an anime search whose query is whitespace-only (but non-empty) is
not rejected as an empty query: the search URL carries no `q` parameter at
all (it is exactly `/anime.php?` when no other filter is supplied), and the
operation issues a page fetch of that URL instead of returning an empty
list without network activity. -/
theorem anime_search_whitespace_query_fetches {α : Type}
    (fetch : String → Option Mal4u.Html) (parsePage : Mal4u.Html → Int → List α)
    (query : String) (hq : query ≠ "") (hw : Mal4u.pyStrip query = "") :
    Mal4u.buildAnimeSearchUrl query none none none none none none none none none
      = "/anime.php?" ∧
    (Mal4u.animeSearch fetch parsePage query 5 none none none none none
        none none none none).2.head?
      = some (Mal4u.Effect.fetchPage "/anime.php?") ∧
    Mal4u.pyContains "/anime.php?" "q=" = false := by
  have hb : Mal4u.buildAnimeSearchUrl query none none none none none none
      none none none = "/anime.php?" := by
    simp [Mal4u.buildAnimeSearchUrl, hw, Mal4u.truthyOptInt]
    rfl
  refine ⟨hb, ?_, by decide⟩
  have h5 : ¬ ((5 : Int) ≤ 0) := by norm_num
  simp only [Mal4u.animeSearch, if_neg hq, if_neg h5, hb]
  have hr : List.range (Mal4u.numPagesToFetch 5) = [0] := rfl
  rw [hr]
  simp only [Mal4u.searchPagesLoop, Mal4u.addOffsetToUrl, Mal4u.MAL_PAGE_SIZE]
  cases hf : fetch "/anime.php?" with
  | none =>
    simp only [if_true, List.length_nil, Nat.cast_zero, ge_iff_le, hf]
    norm_num
  | some soup =>
    simp only [if_true, hf]
    norm_num
    split <;> simp [Mal4u.numPagesToFetch, Mal4u.MAL_PAGE_SIZE]

/-- Witness for C10 at the query `" "` with a failing fetch oracle. -/
theorem anime_search_whitespace_query_fetches_witness :
    Mal4u.buildAnimeSearchUrl " " none none none none none none none none none
      = "/anime.php?" ∧
    (Mal4u.animeSearch (α := Nat) (fun _ => none) (fun _ _ => []) " " 5
        none none none none none none none none none).2.head?
      = some (Mal4u.Effect.fetchPage "/anime.php?") ∧
    Mal4u.pyContains "/anime.php?" "q=" = false :=
  anime_search_whitespace_query_fetches (fun _ => none) (fun _ _ => [])
    " " (by decide) rfl

/-- C5: anime search with limit 120 at page size 50 issues exactly 3
sequential page fetches at offsets 0, 50 and 100, with the fixed 0.5 pause
inserted only between consecutive fetches (none before the first, none
after the last planned fetch); accumulation stops at 120, so at most 120
results are returned (exactly `min (total parsed) 120`). -/
theorem anime_search_limit_120_three_pages {α : Type}
    (fetch : String → Option Mal4u.Html) (parsePage : Mal4u.Html → Int → List α)
    (query : String) (hq : query ≠ "") (base : String)
    (hbase : base = Mal4u.buildAnimeSearchUrl query none none none none none
      none none none none)
    (s0 s1 s2 : Mal4u.Html)
    (h0 : fetch (Mal4u.addOffsetToUrl base 0) = some s0)
    (h1 : fetch (Mal4u.addOffsetToUrl base 50) = some s1)
    (h2 : fetch (Mal4u.addOffsetToUrl base 100) = some s2)
    (l0 : (parsePage s0 120).length ≤ 50)
    (l1 : (parsePage s1 120).length ≤ 50)
    (l2 : (parsePage s2 120).length ≤ 50) :
    (Mal4u.animeSearch fetch parsePage query 120 none none none none none
        none none none none).2
      = [Mal4u.Effect.fetchPage (Mal4u.addOffsetToUrl base 0),
         Mal4u.Effect.sleepHalf,
         Mal4u.Effect.fetchPage (Mal4u.addOffsetToUrl base 50),
         Mal4u.Effect.sleepHalf,
         Mal4u.Effect.fetchPage (Mal4u.addOffsetToUrl base 100)] ∧
    (Mal4u.animeSearch fetch parsePage query 120 none none none none none
        none none none none).1.length
      = min ((parsePage s0 120).length + (parsePage s1 120).length
          + (parsePage s2 120).length) 120 := by
  have h120 : ¬ ((120 : Int) ≤ 0) := by norm_num
  simp only [Mal4u.animeSearch, if_neg hq, if_neg h120, ← hbase]
  rw [show Mal4u.numPagesToFetch 120 = 3 from rfl]
  rw [show List.range 3 = [0, 1, 2] from rfl]
  rw [Mal4u.searchPagesLoop_cons_continue fetch parsePage base 120 3 0 [1, 2]
    [] s0 (by norm_num) h0
    (by simp only [List.nil_append, List.length_take]; omega)
    (by norm_num)]
  rw [Mal4u.searchPagesLoop_cons_continue fetch parsePage base 120 3 1 [2]
    _ s1 (by simp only [List.nil_append, List.length_take]; omega)
    h1
    (by simp only [List.nil_append, List.length_append, List.length_take]; omega)
    (by norm_num)]
  rw [Mal4u.searchPagesLoop_singleton_last fetch parsePage base 120 3 2
    _ s2 (by simp only [List.nil_append, List.length_append, List.length_take]; omega)
    h2
    (by norm_num)]
  constructor
  · rfl
  · simp only [List.nil_append, List.length_append, List.length_take,
      List.length_nil, Nat.cast_zero, Int.sub_zero]
    omega

/-- Witness for C5: a constant oracle serving 50-row pages; the trace is
the five-event fetch/sleep alternation and exactly 120 results remain. -/
theorem anime_search_limit_120_three_pages_witness :
    (Mal4u.animeSearch (α := Nat) (fun _ => some Mal4u.blankPage)
        (fun _ _ => List.replicate 50 0) "naruto" 120 none none none none
        none none none none none).2
      = [Mal4u.Effect.fetchPage (Mal4u.addOffsetToUrl
           (Mal4u.buildAnimeSearchUrl "naruto" none none none none none
             none none none none) 0),
         Mal4u.Effect.sleepHalf,
         Mal4u.Effect.fetchPage (Mal4u.addOffsetToUrl
           (Mal4u.buildAnimeSearchUrl "naruto" none none none none none
             none none none none) 50),
         Mal4u.Effect.sleepHalf,
         Mal4u.Effect.fetchPage (Mal4u.addOffsetToUrl
           (Mal4u.buildAnimeSearchUrl "naruto" none none none none none
             none none none none) 100)] ∧
    (Mal4u.animeSearch (α := Nat) (fun _ => some Mal4u.blankPage)
        (fun _ _ => List.replicate 50 0) "naruto" 120 none none none none
        none none none none none).1.length
      = min (50 + 50 + 50) 120 :=
  anime_search_limit_120_three_pages (fun _ => some Mal4u.blankPage)
    (fun _ _ => List.replicate 50 0) "naruto" (by decide) _ rfl
    Mal4u.blankPage Mal4u.blankPage Mal4u.blankPage rfl rfl rfl
    (by simp) (by simp) (by simp)
